import Mathlib

/-
  Shallow embedding of the SkaffConfig class (src/skaff/config.py).

  Modelling conventions:
  * Python values that can reach the mutators are modelled by the inductive
    type PyObj: None, str, bool, sized iterables (lists/tuples/sets are all
    modelled as a Lean list in iteration order), and an opaque non-iterable
    object (for example a lambda or an int).
  * Python sets of strings are modelled as Finset String; the sorted(...)
    calls of the getters become pySort, a verified insertion sort by the
    code point order Python uses on strings.
  * Mutators mutate the object in place and may raise; a mutator is embedded
    as a function returning the post-call state together with an optional
    raised exception, so a partially mutated state on an exception is
    observable exactly as it is in Python.
  * os.sep is "/": the module imports pwd and is therefore POSIX-only.
    str.endswith(os.sep) for the one-character separator is embedded as a
    test on the last character.
  * str.isprintable is embedded exactly for the ASCII range (codepoints
    below 32 and codepoint 127 are non-printable); the additional non-ASCII
    categories excluded by Python are not modelled, and no claim depends on
    them.
  * The filesystem consulted by licenses_probe / licenses_validate is an
    explicit parameter FS: a directory test, the set of license basenames
    ending in ".txt" and in ".md" under a directory (already stripped of
    path and extension, as the probe does), and a flag saying whether all
    stock license files shipped with the program exist (the condition
    checked by licenses_validate).
  * pwd.getpwuid(os.getuid()) is a parameter PwRecord carrying the gecos
    and name fields; Python string truthiness is emptiness.
-/

inductive PyObj where
  | pyNone
  | pyStr (s : String)
  | pyBool (b : Bool)
  | pyList (xs : List PyObj)
  | pyOther

inductive PyError where
  | typeError (msg : String)
  | valueError (msg : String)
  | fileNotFoundError (msg : String)
  | runtimeError (msg : String)
  | keyError (key : String)
deriving DecidableEq, Repr

/-- LookupError and its subclasses (KeyError, IndexError); RuntimeError and
FileNotFoundError are not LookupError subclasses in Python. -/
def PyError.isLookupError : PyError → Bool
  | .keyError _ => true
  | _ => false

def osSep : String := "/"

def sepChar : Char := '/'

/-- Embedding of directory.endswith(os.sep) for the one-character POSIX
separator: the last character is the separator. -/
def endsWithSep (s : String) : Bool := decide (s.data.getLast? = some sepChar)

/-- Embedding of the normalization done by directory_add and friends:
platform-dependent path separator appended if missing. -/
def sepAppend (s : String) : String := if endsWithSep s then s else s ++ osSep

/-- Embedding of str.isprintable, exact on ASCII. -/
def pyCharPrintable (c : Char) : Bool := decide (32 ≤ c.toNat ∧ c.toNat ≠ 127)

def pyPrintable (s : String) : Bool := s.data.all pyCharPrintable

/-- Code point lexicographic comparison of character lists: the order
Python uses to compare strings in sorted(...).  (Mathlib's String order is
not kernel-reducible, so the comparison is spelled out structurally.) -/
def lexLe : List Char → List Char → Bool
  | [], _ => true
  | _ :: _, [] => false
  | x :: xs, y :: ys =>
      if x < y then true
      else if y < x then false
      else lexLe xs ys

/-- The string order used by the sorted(...) calls of the getters. -/
def pyLe (a b : String) : Prop := lexLe a.data b.data = true

instance : DecidableRel pyLe := fun a b => instDecidableEqBool (lexLe a.data b.data) true

def lexLe_refl : ∀ a, lexLe a a = true := by
  intro a
  induction a with
  | nil => rfl
  | cons x xs ih => simp [lexLe, lt_irrefl, ih]

def lexLe_total : ∀ a b, lexLe a b = true ∨ lexLe b a = true := by
  intro a
  induction a with
  | nil => intro b; left; rfl
  | cons x xs ih =>
      intro b
      cases b with
      | nil => right; rfl
      | cons y ys =>
          rcases lt_trichotomy x y with h | h | h
          · left; simp [lexLe, h]
          · subst h
            rcases ih ys with h2 | h2
            · left; simp [lexLe, lt_irrefl, h2]
            · right; simp [lexLe, lt_irrefl, h2]
          · right; simp [lexLe, h]

def lexLe_trans : ∀ a b c, lexLe a b = true → lexLe b c = true → lexLe a c = true := by
  intro a
  induction a with
  | nil => intro b c _ _; rfl
  | cons x xs ih =>
      intro b c h1 h2
      cases b with
      | nil => simp [lexLe] at h1
      | cons y ys =>
          cases c with
          | nil => simp [lexLe] at h2
          | cons z zs =>
              by_cases hxy : x < y
              · by_cases hyz : y < z
                · simp [lexLe, lt_trans hxy hyz]
                · by_cases hzy : z < y
                  · simp [lexLe, hyz, hzy] at h2
                  · have hyz2 : y = z := le_antisymm (le_of_not_lt hzy) (le_of_not_lt hyz)
                    subst hyz2
                    simp [lexLe, hxy]
              · by_cases hyx : y < x
                · simp [lexLe, hxy, hyx] at h1
                · have hxy2 : x = y := le_antisymm (le_of_not_lt hyx) (le_of_not_lt hxy)
                  subst hxy2
                  simp only [lexLe, if_neg hxy, if_neg hyx] at h1
                  by_cases hxz : x < z
                  · simp [lexLe, hxz]
                  · by_cases hzx : z < x
                    · simp [lexLe, hxz, hzx] at h2
                    · simp only [lexLe, if_neg hxz, if_neg hzx] at h2 ⊢
                      exact ih ys zs h1 h2

def lexLe_antisymm : ∀ a b, lexLe a b = true → lexLe b a = true → a = b := by
  intro a
  induction a with
  | nil =>
      intro b _ h2
      cases b with
      | nil => rfl
      | cons y ys => simp [lexLe] at h2
  | cons x xs ih =>
      intro b h1 h2
      cases b with
      | nil => simp [lexLe] at h1
      | cons y ys =>
          by_cases hxy : x < y
          · simp [lexLe, hxy] at h2
            exact absurd h2 (lt_asymm hxy)
          · by_cases hyx : y < x
            · simp [lexLe, hxy, hyx] at h1
            · have hxy2 : x = y := le_antisymm (le_of_not_lt hyx) (le_of_not_lt hxy)
              subst hxy2
              simp only [lexLe, if_neg hxy, if_neg hyx] at h1 h2
              rw [ih ys h1 h2]

instance : IsTrans String pyLe :=
  ⟨fun a b c h1 h2 => lexLe_trans a.data b.data c.data h1 h2⟩

instance : IsAntisymm String pyLe :=
  ⟨fun a b h1 h2 => by
    cases a with
    | mk da =>
        cases b with
        | mk db => rw [lexLe_antisymm da db h1 h2]⟩

instance : IsTotal String pyLe := ⟨fun a b => lexLe_total a.data b.data⟩

instance : IsRefl String pyLe := ⟨fun a => lexLe_refl a.data⟩

/-- Ordered insertion for the embedding of sorted(...). -/
def insort (x : String) : List String → List String
  | [] => [x]
  | y :: ys => if lexLe x.data y.data then x :: y :: ys else y :: insort x ys

/-- Insertion sort: a structural implementation of sorted(...) that the
kernel can evaluate (List.mergeSort is defined by well-founded recursion
and cannot be). -/
def isort (l : List String) : List String := l.foldr insort []

def insort_perm : ∀ (x : String) (l : List String), (insort x l).Perm (x :: l) := by
  intro x l
  induction l with
  | nil => exact List.Perm.refl _
  | cons y ys ih =>
      by_cases h : lexLe x.data y.data
      · simp [insort, h]
      · simp only [insort, if_neg h]
        exact ((ih.cons y).trans (List.Perm.swap x y ys))

def isort_perm : ∀ (l : List String), (isort l).Perm l := by
  intro l
  induction l with
  | nil => exact List.Perm.refl _
  | cons x xs ih => exact (insort_perm x (isort xs)).trans (ih.cons x)

def insort_sorted : ∀ (x : String) (l : List String),
    List.Sorted pyLe l → List.Sorted pyLe (insort x l) := by
  intro x l
  induction l with
  | nil => intro _; simp [insort, List.sorted_singleton]
  | cons y ys ih =>
      intro h
      rw [List.sorted_cons] at h
      by_cases hxy : lexLe x.data y.data
      · rw [insort, if_pos hxy, List.sorted_cons]
        refine ⟨?_, List.sorted_cons.mpr h⟩
        intro b hb
        rcases List.mem_cons.mp hb with rfl | hb
        · exact hxy
        · exact Trans.trans (r := pyLe) hxy (h.1 b hb)
      · rw [insort, if_neg hxy, List.sorted_cons]
        refine ⟨?_, ih h.2⟩
        intro b hb
        have hb2 : b ∈ x :: ys := (insort_perm x ys).mem_iff.mp hb
        rcases List.mem_cons.mp hb2 with rfl | hb2
        · rcases lexLe_total b.data y.data with h2 | h2
          · exact absurd h2 hxy
          · exact h2
        · exact h.1 b hb2

def isort_sorted : ∀ (l : List String), List.Sorted pyLe (isort l) := by
  intro l
  induction l with
  | nil => simp [isort]
  | cons x xs ih => exact insort_sorted x (isort xs) ih

def isort_eq_of_perm : ∀ (a b : List String), a.Perm b → isort a = isort b :=
  fun a b h =>
    List.eq_of_perm_of_sorted ((isort_perm a).trans (h.trans (isort_perm b).symm))
      (isort_sorted a) (isort_sorted b)

/-- sorted(...) on a Python set of strings: the canonical ascending list
of the elements of a Finset. -/
def pySort (s : Finset String) : List String :=
  Quot.liftOn s.val isort isort_eq_of_perm

def mem_pySort : ∀ (s : Finset String) (a : String), a ∈ pySort s ↔ a ∈ s := by
  intro s a
  rcases s with ⟨m, nd⟩
  induction m using Quotient.inductionOn with
  | h l =>
      show a ∈ isort l ↔ _
      rw [(isort_perm l).mem_iff]
      exact Iff.symm (Finset.mem_mk.trans (Multiset.mem_coe))

def pySort_nodup : ∀ (s : Finset String), (pySort s).Nodup := by
  intro s
  rcases s with ⟨m, nd⟩
  induction m using Quotient.inductionOn with
  | h l =>
      show (isort l).Nodup
      exact (isort_perm l).nodup_iff.mpr (Multiset.coe_nodup.mp nd)

def pySort_sorted : ∀ (s : Finset String), List.Sorted pyLe (pySort s) := by
  intro s
  rcases s with ⟨m, nd⟩
  induction m using Quotient.inductionOn with
  | h l => exact isort_sorted l

structure Paths where
  config : String
  license : String
  template : String
deriving DecidableEq, Repr

structure SkaffConfig where
  paths : Paths
  licenses : Finset String
  subdirectories : Finset String
  directories : Finset String
  authors : Finset String
  language : String
  license : String
  quiet : Bool
deriving DecidableEq

structure FS where
  isDir : String → Bool
  txt : String → Finset String
  md : String → Finset String
  stockOk : Bool

structure PwRecord where
  gecos : String
  name : String

/-- SkaffConfig.__LANGUAGES -/
def LANGUAGES : Finset String := {"c", "cpp"}

/-- SkaffConfig.__LICENSES -/
def stockLicenses : Finset String := {"bsd2", "bsd3", "gpl2", "gpl3", "mit"}

/-- Default subdirectory names assigned by subdirectories_set when the
argument is left as None; the code stores them directly, without passing
them through subdirectory_add. -/
def defaultSubdirs : Finset String :=
  {"build", "coccinelle", "doc", "examples", "img", "src", "tests"}

-- Exception message literals from config.py (' is the ASCII apostrophe).
def msgAuthorsIterable : String := "'authors' argument must be iterable"
def msgAuthorsStr : String :=
  "'authors' argument must be an iterable containing 'str' type"
def msgAuthorsEmpty : String := "'authors' argument must not be empty"
def msgAuthorStr : String := "'author' argument must be 'str' type"
def msgAuthorEmpty : String := "'author' argument must not be empty"
def msgAuthorName : String := "'author' argument must be a valid name"
def msgDirectoriesIterable : String := "'directories' argument must be iterable"
def msgDirectoriesStr : String :=
  "'directories' argument must be an iterable containing 'str' type"
def msgDirectoriesEmpty : String := "'directories' argument must not be empty"
def msgDirectoryStr : String := "'directory' argument must be 'str' type"
def msgDirectoryEmpty : String := "'directory' argument must not be empty"
def msgDirectoryName : String := "'directory' argument must be a valid file name"
def msgSubdirectoriesIterable : String :=
  "'subdirectories' argument must be iterable"
def msgSubdirectoriesStr : String :=
  "'subdirectories' argument must be an iterable containing 'str' type"
def msgSubdirectoriesEmpty : String :=
  "'subdirectories' argument must not be empty"
def msgSubdirectoryStr : String :=
  "'subdirectory' argument must be 'str' type"
def msgSubdirectoryEmpty : String :=
  "'subdirectory' argument must not be empty"
def msgSubdirectoryName : String :=
  "'subdirectory' argument must be a valid file name"
def msgQuietBool : String := "'quiet' must be of 'bool' type"
def msgArgsStr : String := "'args' must contain 'str' types"
def msgAuthorFetch : String := "Failed attempt to get default username"
def msgPathsKwargs : String :=
  String.append "values of 'kwargs' must be of 'str' type and "
    "keys must be one of the following keywords: config, license, template"
/-- Message of the FileNotFoundError raised by licenses_probe on a format
mismatch; the code builds it by joining the two format keys with the long
literal as separator in unspecified frozenset iteration order, so only a
representative fixed text is used here (no claim depends on it). -/
def msgProbeMismatch : String :=
  "The number of license files end with those file extensions must equal"

/-
  In language_set and license_set the source juxtaposes the string literals
  of the message with the literal ", " (compile-time concatenation) and the
  resulting single literal becomes the separator of str.join; the joined
  generator was already exhausted by the preceding membership test, so the
  raised ValueError always carries the empty string.  The separators are
  kept verbatim.
-/
def langErrSep : String :=
  "'language' choice must be one of the following: , "
def licErrSep : String :=
  "'license' choice must be one of the following: , "

/-- A Python generator over a list of strings, consumed by the membership
test x not in gen: returns whether x was absent together with the elements
remaining after consumption (everything after the first hit, or nothing
when x was absent). -/
def genConsumeNotIn (x : String) : List String → Bool × List String
  | [] => (true, [])
  | y :: ys => if y = x then (false, ys) else genConsumeNotIn x ys

/-- author_fetch (staticmethod): gecos field if truthy, else name field if
truthy, else RuntimeError. -/
def author_fetch (user : PwRecord) : Except PyError String :=
  if user.gecos ≠ "" then .ok user.gecos
  else if user.name ≠ "" then .ok user.name
  else .error (.runtimeError msgAuthorFetch)

/-- author_add: type check, emptiness check, printability check, then
set.add of the name itself (no normalization). -/
def author_add (cfg : SkaffConfig) (author : PyObj) : SkaffConfig × Option PyError :=
  match author with
  | .pyStr s =>
      if s.length = 0 then (cfg, some (.valueError msgAuthorEmpty))
      else if pyPrintable s = false then (cfg, some (.valueError msgAuthorName))
      else ({ cfg with authors := insert s cfg.authors }, none)
  | _ => (cfg, some (.typeError msgAuthorStr))

/-- directory_add: like author_add but the platform path separator is
appended when missing before the set.add. -/
def directory_add (cfg : SkaffConfig) (directory : PyObj) : SkaffConfig × Option PyError :=
  match directory with
  | .pyStr s =>
      if s.length = 0 then (cfg, some (.valueError msgDirectoryEmpty))
      else if pyPrintable s = false then (cfg, some (.valueError msgDirectoryName))
      else ({ cfg with directories := insert (sepAppend s) cfg.directories }, none)
  | _ => (cfg, some (.typeError msgDirectoryStr))

/-- subdirectory_add: identical to directory_add on the subdirectories
field. -/
def subdirectory_add (cfg : SkaffConfig) (subdirectory : PyObj) : SkaffConfig × Option PyError :=
  match subdirectory with
  | .pyStr s =>
      if s.length = 0 then (cfg, some (.valueError msgSubdirectoryEmpty))
      else if pyPrintable s = false then (cfg, some (.valueError msgSubdirectoryName))
      else ({ cfg with subdirectories := insert (sepAppend s) cfg.subdirectories }, none)
  | _ => (cfg, some (.typeError msgSubdirectoryStr))

/-- The for loop of the *_set mutators: call the *_add member function on
each element in iteration order; an exception propagates immediately,
leaving the elements already added in place. -/
def foldAdds (add : SkaffConfig → PyObj → SkaffConfig × Option PyError) :
    SkaffConfig → List PyObj → SkaffConfig × Option PyError
  | cfg, [] => (cfg, none)
  | cfg, x :: xs =>
      match add cfg x with
      | (c, none) => foldAdds add c xs
      | (c, some e) => (c, some e)

/-- authors_set: None selects the default (clear, then add the fetched
user name); otherwise iterable check, bare-string check, emptiness check,
then clear and re-add every element. -/
def authors_set (user : PwRecord) (cfg : SkaffConfig) (authors : PyObj) :
    SkaffConfig × Option PyError :=
  match authors with
  | .pyNone =>
      let c := { cfg with authors := (∅ : Finset String) }
      match author_fetch user with
      | .ok a => author_add c (.pyStr a)
      | .error e => (c, some e)
  | .pyStr _ => (cfg, some (.typeError msgAuthorsStr))
  | .pyList xs =>
      if xs.length = 0 then (cfg, some (.valueError msgAuthorsEmpty))
      else foldAdds author_add { cfg with authors := (∅ : Finset String) } xs
  | _ => (cfg, some (.typeError msgAuthorsIterable))

/-- directories_set: no None default branch, so None falls into the
non-iterable TypeError; otherwise like authors_set with directory_add. -/
def directories_set (cfg : SkaffConfig) (directories : PyObj) :
    SkaffConfig × Option PyError :=
  match directories with
  | .pyStr _ => (cfg, some (.typeError msgDirectoriesStr))
  | .pyList xs =>
      if xs.length = 0 then (cfg, some (.valueError msgDirectoriesEmpty))
      else foldAdds directory_add { cfg with directories := (∅ : Finset String) } xs
  | _ => (cfg, some (.typeError msgDirectoriesIterable))

/-- subdirectories_set: None assigns the fixed default name set directly
(without passing through subdirectory_add, hence without separator
normalization); otherwise like directories_set with subdirectory_add. -/
def subdirectories_set (cfg : SkaffConfig) (subdirectories : PyObj) :
    SkaffConfig × Option PyError :=
  match subdirectories with
  | .pyNone => ({ cfg with subdirectories := defaultSubdirs }, none)
  | .pyStr _ => (cfg, some (.typeError msgSubdirectoriesStr))
  | .pyList xs =>
      if xs.length = 0 then (cfg, some (.valueError msgSubdirectoriesEmpty))
      else foldAdds subdirectory_add
        { cfg with subdirectories := (∅ : Finset String) } xs
  | _ => (cfg, some (.typeError msgSubdirectoriesIterable))

/-- authors_get: sorted sequence of the stored authors. -/
def authors_get (cfg : SkaffConfig) : List String := pySort cfg.authors

/-- directories_get: sorted sequence of the stored directories. -/
def directories_get (cfg : SkaffConfig) : List String := pySort cfg.directories

/-- subdirectories_get: sorted sequence of the stored subdirectories. -/
def subdirectories_get (cfg : SkaffConfig) : List String :=
  pySort cfg.subdirectories

/-- languages_list: sorted contents of the fixed language set. -/
def languages_list : List String := pySort LANGUAGES

/-- licenses_list: sorted contents of the internal licenses set. -/
def licenses_list (cfg : SkaffConfig) : List String := pySort cfg.licenses

/-- language_set: None stores the default "c"; any other value is tested
for membership against the languages_list generator (consuming it), and a
miss raises ValueError whose message is the exhausted generator joined
with the long literal as separator, that is the empty string.  A value
that is not a string is never equal to a language, so it takes the same
error path. -/
def language_set (cfg : SkaffConfig) (language : PyObj) : SkaffConfig × Option PyError :=
  match language with
  | .pyNone => ({ cfg with language := "c" }, none)
  | .pyStr s =>
      let r := genConsumeNotIn s languages_list
      if r.1 then (cfg, some (.valueError (String.intercalate langErrSep r.2)))
      else ({ cfg with language := s }, none)
  | _ => (cfg, some (.valueError (String.intercalate langErrSep [])))

/-- licenses_validate: raises FileNotFoundError when any stock license
file (or the system license directory) is missing; changes no state. -/
def licenses_validate (fs : FS) (cfg : SkaffConfig) : SkaffConfig × Option PyError :=
  if fs.stockOk then (cfg, none)
  else (cfg, some (.fileNotFoundError "stock license file missing"))

/-- licenses_probe: FIRST resets the internal licenses set to the stock
set, then returns silently when the user license path is not a directory;
otherwise compares the ".txt" and ".md" basename sets under that path and
either raises FileNotFoundError on a mismatch (leaving the reset stock
set in place) or merges the ".txt" names into the licenses set. -/
def licenses_probe (fs : FS) (cfg : SkaffConfig) : SkaffConfig × Option PyError :=
  let c := { cfg with licenses := stockLicenses }
  let p := c.paths.license
  if fs.isDir p = false then (c, none)
  else if fs.txt p ≠ fs.md p then (c, some (.fileNotFoundError msgProbeMismatch))
  else ({ c with licenses := stockLicenses ∪ fs.txt p }, none)

/-- license_set: first licenses_validate, then licenses_probe (both may
raise), then None stores the default "bsd2", and any other value is
tested against the freshly probed licenses_list generator; a miss raises
ValueError with the empty message for the same reason as language_set. -/
def license_set (fs : FS) (cfg : SkaffConfig) (license : PyObj) :
    SkaffConfig × Option PyError :=
  match licenses_validate fs cfg with
  | (c, some e) => (c, some e)
  | (_, none) =>
    match licenses_probe fs cfg with
    | (c, some e) => (c, some e)
    | (c, none) =>
      match license with
      | .pyNone => ({ c with license := "bsd2" }, none)
      | .pyStr s =>
          let r := genConsumeNotIn s (licenses_list c)
          if r.1 then (c, some (.valueError (String.intercalate licErrSep r.2)))
          else ({ c with license := s }, none)
      | _ => (c, some (.valueError (String.intercalate licErrSep [])))

/-- language_get. -/
def language_get (cfg : SkaffConfig) : String := cfg.language

/-- license_get without the fullname flag. -/
def license_get (cfg : SkaffConfig) : String := cfg.license

/-- quiet_set: None stores the default True; a bool is stored; anything
else raises TypeError before any mutation. -/
def quiet_set (cfg : SkaffConfig) (quiet : PyObj) : SkaffConfig × Option PyError :=
  match quiet with
  | .pyNone => ({ cfg with quiet := true }, none)
  | .pyBool b => ({ cfg with quiet := b }, none)
  | _ => (cfg, some (.typeError msgQuietBool))

/-- quiet_get. -/
def quiet_get (cfg : SkaffConfig) : Bool := cfg.quiet

/-- Default user paths built by paths_set from the home directory
(os.path.expanduser is the parameter home). -/
def defaultPaths (home : String) : Paths :=
  let userConfig := home ++ osSep ++ ".config" ++ osSep ++ "skaff" ++ osSep
  { config := userConfig
    license := userConfig ++ "license" ++ osSep
    template := userConfig ++ "template" ++ osSep }

def isPyStr : PyObj → Bool
  | .pyStr _ => true
  | _ => false

def isPathKey (k : String) : Bool := k = "config" || k = "license" || k = "template"

def isPathKeyObj : PyObj → Bool
  | .pyStr k => isPathKey k
  | _ => false

def kwLookup (kwargs : List (String × PyObj)) (k : String) : Option PyObj :=
  (kwargs.find? (fun kv => kv.1 = k)).map (fun kv => kv.2)

/-- paths_set: validates that every keyword is one of config, license,
template with a string value (ValueError otherwise), fills missing keys
with the per-user defaults and stores the mapping. -/
def paths_set (home : String) (cfg : SkaffConfig) (kwargs : List (String × PyObj)) :
    SkaffConfig × Option PyError :=
  if kwargs.all (fun kv => isPathKey kv.1 && isPyStr kv.2) = false then
    (cfg, some (.valueError msgPathsKwargs))
  else
    let d := defaultPaths home
    let getS := fun (k : String) (dflt : String) =>
      match kwLookup kwargs k with
      | some (.pyStr s) => s
      | _ => dflt
    ({ cfg with paths :=
        { config := getS "config" d.config
          license := getS "license" d.license
          template := getS "template" d.template } }, none)

/-- Result of paths_get: the deep copy of the whole mapping (zero
arguments), one path string (one argument), or the Python None that the
multi-argument branch falls through to because its result list is never
returned. -/
inductive PathsGetResult where
  | dict (d : Paths)
  | single (s : String)
  | listNone
deriving DecidableEq, Repr

/-- Dictionary lookup self.__config\x7b"paths"\x7d[k]: KeyError on an
unknown key. -/
def pathsLookup (p : Paths) (k : String) : Except PyError String :=
  if k = "config" then .ok p.config
  else if k = "license" then .ok p.license
  else if k = "template" then .ok p.template
  else .error (.keyError k)

def strval : PyObj → String
  | .pyStr s => s
  | _ => ""

/-- The multi-argument loop of paths_get: looks every key up (a KeyError
propagates) and then falls off the end of the function, returning None. -/
def pathsLoop (p : Paths) : List PyObj → Except PyError PathsGetResult
  | [] => .ok .listNone
  | a :: rest =>
      match pathsLookup p (strval a) with
      | .ok _ => pathsLoop p rest
      | .error e => .error e

/-- paths_get: type check on all arguments, then dispatch on the argument
count; the build-a-list branch for two or more arguments lacks a return
statement in the source, so it returns None. -/
def paths_get (cfg : SkaffConfig) (args : List PyObj) : Except PyError PathsGetResult :=
  if args.all isPyStr = false then .error (.typeError msgArgsStr)
  else
    match args with
    | [] => .ok (.dict cfg.paths)
    | [a] =>
        match pathsLookup cfg.paths (strval a) with
        | .ok s => .ok (.single s)
        | .error e => .error e
    | _ => pathsLoop cfg.paths args

/-- languages_probe: the body is pass. -/
def languages_probe (cfg : SkaffConfig) : SkaffConfig × Option PyError := (cfg, none)

/-- Keyword arguments accepted by the constructor, one per attribute name
in __ATTRIBUTES ("directories" already merged with the positional
argument by kwargs.setdefault). -/
structure InitKwargs where
  paths : Option PyObj := none
  languages : Option PyObj := none
  licenses : Option PyObj := none
  subdirectories : Option PyObj := none
  directories : Option PyObj := none
  authors : Option PyObj := none
  language : Option PyObj := none
  license : Option PyObj := none
  quiet : Option PyObj := none

/-- The per-instance dict starts as dict.fromkeys(__ATTRIBUTES): every
field unset.  The construction sequence assigns every field before it is
read, so the placeholder values below are never observable in a
successfully constructed instance. -/
def blankConfig : SkaffConfig :=
  { paths := { config := "", license := "", template := "" }
    licenses := ∅
    subdirectories := ∅
    directories := ∅
    authors := ∅
    language := ""
    license := ""
    quiet := false }

/-- Exception propagation between the constructor steps: a raised
exception aborts the remaining mutator calls. -/
def andThen (r : SkaffConfig × Option PyError)
    (f : SkaffConfig → SkaffConfig × Option PyError) : SkaffConfig × Option PyError :=
  match r with
  | (c, none) => f c
  | (c, some e) => (c, some e)

/-- The TypeError CPython raises when a method accepting no positional
parameter beyond self receives the kwargs value positionally, as the
constructor dispatch __ARGUMENTS[key](kwargs[key]) does for paths_set,
languages_probe and licenses_probe. -/
def noPositional (m : String) (cfg : SkaffConfig) : SkaffConfig × Option PyError :=
  (cfg, some (.typeError (m ++ "() takes 1 positional argument but 2 were given")))

/-- SkaffConfig.__init__: kwargs.setdefault("directories", directories),
then the mutators bound to the attributes are called in the fixed
__ATTRIBUTES order (paths, languages, licenses, subdirectories,
directories, authors, language, license, quiet), each with the kwargs
value when the key is present and with no argument (default None)
otherwise.  paths_set, languages_probe and licenses_probe accept no
positional argument, so a present paths, languages or licenses key makes
the dispatch raise TypeError. -/
def SkaffConfig.init (fs : FS) (user : PwRecord) (home : String)
    (directories : PyObj) (kw : InitKwargs) : SkaffConfig × Option PyError :=
  let dirsArg := kw.directories.getD directories
  andThen
    (match kw.paths with
     | some _ => noPositional "paths_set" blankConfig
     | none => paths_set home blankConfig []) fun c =>
  andThen
    (match kw.languages with
     | some _ => noPositional "languages_probe" c
     | none => languages_probe c) fun c =>
  andThen
    (match kw.licenses with
     | some _ => noPositional "licenses_probe" c
     | none => licenses_probe fs c) fun c =>
  andThen (subdirectories_set c (kw.subdirectories.getD .pyNone)) fun c =>
  andThen (directories_set c dirsArg) fun c =>
  andThen (authors_set user c (kw.authors.getD .pyNone)) fun c =>
  andThen (language_set c (kw.language.getD .pyNone)) fun c =>
  andThen (license_set fs c (kw.license.getD .pyNone)) fun c =>
  quiet_set c (kw.quiet.getD .pyNone)

/-
  Concrete fixtures used by counterexamples and witnesses.
-/

/-- A user record with both the gecos and the login name present. -/
def userA : PwRecord := { gecos := "Alice Author", name := "alice" }

/-- A user record with neither the gecos nor the login name present. -/
def userNone : PwRecord := { gecos := "", name := "" }

/-- A fully constructed configuration: stock licenses, one author, the
user license path "lic/". -/
def cfgA : SkaffConfig :=
  { paths := { config := "cfg/", license := "lic/", template := "tpl/" }
    licenses := stockLicenses
    subdirectories := ∅
    directories := ∅
    authors := {"alice"}
    language := "c"
    license := "bsd2"
    quiet := true }

/-- cfgA after a custom license has been probed into the allowed set. -/
def cfgC : SkaffConfig := { cfgA with licenses := insert "custom" stockLicenses }

/-- A filesystem with no user license directory and intact stock files. -/
def fsNone : FS :=
  { isDir := fun _ => false, txt := fun _ => ∅, md := fun _ => ∅, stockOk := true }

/-- The user license path of the default paths for home directory "home". -/
def defLic : String := (defaultPaths "home").license

/-- A filesystem where the default user license path holds the custom
license zlib in both required formats. -/
def fsHome : FS :=
  { isDir := fun p => p == defLic
    txt := fun p => if p == defLic then {"zlib"} else ∅
    md := fun p => if p == defLic then {"zlib"} else ∅
    stockOk := true }

/-- A filesystem where the directory "lic/" holds zlib.txt but no
zlib.md: the probe must fail on it. -/
def fsMismatch : FS :=
  { isDir := fun p => p == "lic/"
    txt := fun p => if p == "lic/" then {"zlib"} else ∅
    md := fun _ => ∅
    stockOk := true }

/-
  Helper lemmas shared by the claim theorems.
-/

theorem length_ne_zero_of_ne_empty (s : String) (h : s ≠ "") : s.length ≠ 0 := by
  cases s with
  | mk data =>
      cases data with
      | nil => exact absurd rfl h
      | cons a l => simp [String.length]

theorem endsWithSep_sepAppend (s : String) : endsWithSep (sepAppend s) = true := by
  unfold sepAppend
  by_cases h : endsWithSep s = true
  · rw [if_pos h]; exact h
  · rw [if_neg h]
    unfold endsWithSep
    have hd : (s ++ osSep).data = s.data ++ ['/'] := by
      rw [String.data_append]; rfl
    rw [hd]
    simp [List.getLast?_concat, sepChar]

theorem directory_add_inv (cfg : SkaffConfig) (x : PyObj)
    (hc : ∀ d ∈ cfg.directories, endsWithSep d = true) :
    ∀ d ∈ (directory_add cfg x).1.directories, endsWithSep d = true := by
  cases x with
  | pyStr s =>
      by_cases h0 : s.length = 0
      · simpa [directory_add, h0] using hc
      · by_cases hp : pyPrintable s = false
        · simpa [directory_add, h0, hp] using hc
        · intro d hd
          simp only [directory_add, if_neg h0, if_neg hp] at hd
          rcases Finset.mem_insert.mp hd with h | h
          · subst h; exact endsWithSep_sepAppend s
          · exact hc d h
  | pyNone => simpa [directory_add] using hc
  | pyBool b => simpa [directory_add] using hc
  | pyList xs => simpa [directory_add] using hc
  | pyOther => simpa [directory_add] using hc

theorem subdirectory_add_inv (cfg : SkaffConfig) (x : PyObj)
    (hc : ∀ d ∈ cfg.subdirectories, endsWithSep d = true) :
    ∀ d ∈ (subdirectory_add cfg x).1.subdirectories, endsWithSep d = true := by
  cases x with
  | pyStr s =>
      by_cases h0 : s.length = 0
      · simpa [subdirectory_add, h0] using hc
      · by_cases hp : pyPrintable s = false
        · simpa [subdirectory_add, h0, hp] using hc
        · intro d hd
          simp only [subdirectory_add, if_neg h0, if_neg hp] at hd
          rcases Finset.mem_insert.mp hd with h | h
          · subst h; exact endsWithSep_sepAppend s
          · exact hc d h
  | pyNone => simpa [subdirectory_add] using hc
  | pyBool b => simpa [subdirectory_add] using hc
  | pyList xs => simpa [subdirectory_add] using hc
  | pyOther => simpa [subdirectory_add] using hc

theorem foldAdds_inv_directories : ∀ (xs : List PyObj) (c : SkaffConfig),
    (∀ d ∈ c.directories, endsWithSep d = true) →
    ∀ d ∈ (foldAdds directory_add c xs).1.directories, endsWithSep d = true := by
  intro xs
  induction xs with
  | nil => intro c hc; simpa [foldAdds] using hc
  | cons x xs ih =>
      intro c hc
      have h1 := directory_add_inv c x hc
      rcases hadd : directory_add c x with ⟨c1, e⟩
      rw [hadd] at h1
      cases e with
      | none =>
          intro d hd
          simp only [foldAdds, hadd] at hd
          exact ih c1 h1 d hd
      | some err =>
          intro d hd
          simp only [foldAdds, hadd] at hd
          exact h1 d hd

theorem foldAdds_inv_subdirectories : ∀ (xs : List PyObj) (c : SkaffConfig),
    (∀ d ∈ c.subdirectories, endsWithSep d = true) →
    ∀ d ∈ (foldAdds subdirectory_add c xs).1.subdirectories, endsWithSep d = true := by
  intro xs
  induction xs with
  | nil => intro c hc; simpa [foldAdds] using hc
  | cons x xs ih =>
      intro c hc
      have h1 := subdirectory_add_inv c x hc
      rcases hadd : subdirectory_add c x with ⟨c1, e⟩
      rw [hadd] at h1
      cases e with
      | none =>
          intro d hd
          simp only [foldAdds, hadd] at hd
          exact ih c1 h1 d hd
      | some err =>
          intro d hd
          simp only [foldAdds, hadd] at hd
          exact h1 d hd

theorem isPathKeyObj_str (a : PyObj) (h : isPathKeyObj a = true) : isPyStr a = true := by
  cases a <;> simp_all [isPathKeyObj, isPyStr]

theorem all_str_of_all_key (l : List PyObj) (h : l.all isPathKeyObj = true) :
    l.all isPyStr = true := by
  induction l with
  | nil => rfl
  | cons a rest ih =>
      simp only [List.all_cons, Bool.and_eq_true] at h ⊢
      exact ⟨isPathKeyObj_str a h.1, ih h.2⟩

theorem pathsLookup_ok (p : Paths) (k : String) (h : isPathKey k = true) :
    ∃ s, pathsLookup p k = .ok s := by
  unfold isPathKey at h
  simp only [Bool.or_eq_true, decide_eq_true_eq] at h
  rcases h with (h | h) | h
  · exact ⟨p.config, by simp [pathsLookup, h]⟩
  · exact ⟨p.license, by simp [pathsLookup, h]⟩
  · exact ⟨p.template, by simp [pathsLookup, h]⟩

theorem pathsLoop_ok (p : Paths) : ∀ (l : List PyObj), l.all isPathKeyObj = true →
    pathsLoop p l = .ok .listNone := by
  intro l
  induction l with
  | nil => intro _; rfl
  | cons a rest ih =>
      intro h
      simp only [List.all_cons, Bool.and_eq_true] at h
      cases a with
      | pyStr k =>
          obtain ⟨t, ht⟩ := pathsLookup_ok p k (by simpa [isPathKeyObj] using h.1)
          simp [pathsLoop, strval, ht, ih h.2]
      | pyNone => simp [isPathKeyObj] at h
      | pyBool b => simp [isPathKeyObj] at h
      | pyList xs => simp [isPathKeyObj] at h
      | pyOther => simp [isPathKeyObj] at h

/-
  Claim theorems.
-/

/-- Claim C1, amended.  The iterable-level rejections of the three
set-typed mutators (non-iterable input, bare string, empty collection)
happen before any mutation and leave the stored set exactly as it was;
but a rejection caused by an invalid element happens after the mutator
has already cleared the field, so the field ends up cleared and partially
repopulated with the elements preceding the offending one (last
conjunct), not with its previous value. -/
theorem C1_set_rejection_state (u : PwRecord) (cfg : SkaffConfig) (s : String) (b : Bool) :
    authors_set u cfg (.pyStr s) = (cfg, some (.typeError msgAuthorsStr)) ∧
    authors_set u cfg .pyOther = (cfg, some (.typeError msgAuthorsIterable)) ∧
    authors_set u cfg (.pyBool b) = (cfg, some (.typeError msgAuthorsIterable)) ∧
    authors_set u cfg (.pyList []) = (cfg, some (.valueError msgAuthorsEmpty)) ∧
    directories_set cfg (.pyStr s) = (cfg, some (.typeError msgDirectoriesStr)) ∧
    directories_set cfg .pyOther = (cfg, some (.typeError msgDirectoriesIterable)) ∧
    directories_set cfg (.pyBool b) = (cfg, some (.typeError msgDirectoriesIterable)) ∧
    directories_set cfg .pyNone = (cfg, some (.typeError msgDirectoriesIterable)) ∧
    directories_set cfg (.pyList []) = (cfg, some (.valueError msgDirectoriesEmpty)) ∧
    subdirectories_set cfg (.pyStr s) = (cfg, some (.typeError msgSubdirectoriesStr)) ∧
    subdirectories_set cfg .pyOther = (cfg, some (.typeError msgSubdirectoriesIterable)) ∧
    subdirectories_set cfg (.pyBool b) = (cfg, some (.typeError msgSubdirectoriesIterable)) ∧
    subdirectories_set cfg (.pyList []) = (cfg, some (.valueError msgSubdirectoriesEmpty)) ∧
    authors_set u cfg (.pyList [.pyStr "b", .pyStr ""]) =
      ({ cfg with authors := insert "b" (∅ : Finset String) },
        some (.valueError msgAuthorEmpty)) :=
  ⟨rfl, rfl, rfl, rfl, rfl, rfl, rfl, rfl, rfl, rfl, rfl, rfl, rfl, rfl⟩

/-- Claim C1, counterexample to the claim as stated: on a configuration
whose authors set is nonempty, authors_set rejects the element "" with a
ValueError, yet the stored authors set is no longer what it was before
the call (it was cleared and partially repopulated). -/
theorem C1_set_rejection_state_counterexample :
    (authors_set userA cfgA (.pyList [.pyStr "bob", .pyStr ""])).2.isSome = true ∧
    (authors_set userA cfgA (.pyList [.pyStr "bob", .pyStr ""])).1.authors ≠ cfgA.authors := by
  decide

/-- Claim C2, amended.  Every element that reaches the stored directories
or subdirectories sets through directory_add / subdirectory_add (hence
through any *_set call with an explicit iterable argument, including the
failing ones, and through construction with explicit arguments) ends with
the platform path separator, and a directories_set of a single name
stores and returns exactly that name with the separator appended; the
exception refuted by the counterexample is subdirectories_set with the
argument left as None, which stores the fixed default names verbatim. -/
theorem C2_trailing_separator (cfg : SkaffConfig) (x : PyObj) (xs : List PyObj)
    (hd : ∀ d ∈ cfg.directories, endsWithSep d = true)
    (hs : ∀ d ∈ cfg.subdirectories, endsWithSep d = true) :
    (∀ d ∈ (directory_add cfg x).1.directories, endsWithSep d = true) ∧
    (∀ d ∈ (subdirectory_add cfg x).1.subdirectories, endsWithSep d = true) ∧
    (∀ d ∈ (directories_set cfg (.pyList xs)).1.directories, endsWithSep d = true) ∧
    (∀ d ∈ (subdirectories_set cfg (.pyList xs)).1.subdirectories, endsWithSep d = true) ∧
    directories_get ((directories_set cfg (.pyList [.pyStr "proj"])).1) = ["proj" ++ osSep] := by
  refine ⟨directory_add_inv cfg x hd, subdirectory_add_inv cfg x hs, ?_, ?_, rfl⟩
  · cases xs with
    | nil => simpa [directories_set] using hd
    | cons y ys =>
        intro d hdm
        simp only [directories_set] at hdm
        rw [if_neg (by simp)] at hdm
        exact foldAdds_inv_directories (y :: ys) _ (by simp) d hdm
  · cases xs with
    | nil => simpa [subdirectories_set] using hs
    | cons y ys =>
        intro d hdm
        simp only [subdirectories_set] at hdm
        rw [if_neg (by simp)] at hdm
        exact foldAdds_inv_subdirectories (y :: ys) _ (by simp) d hdm

/-- Claim C2, witness. -/
theorem C2_trailing_separator_witness :
    directories_get ((directories_set cfgA (.pyList [.pyStr "proj"])).1) = ["proj" ++ osSep] :=
  (C2_trailing_separator cfgA .pyOther [] (by decide) (by decide)).2.2.2.2

/-- Claim C2, counterexample to the claim as stated: subdirectories_set
with the argument left as None succeeds, yet it stores the default name
"build" without a trailing path separator. -/
theorem C2_trailing_separator_counterexample :
    (subdirectories_set cfgA .pyNone).2 = none ∧
    "build" ∈ (subdirectories_set cfgA .pyNone).1.subdirectories ∧
    endsWithSep "build" = false := by
  decide

/-- Claim C3, amended.  When the user license path is a directory whose
".txt" and ".md" license basename sets differ, licenses_probe raises a
FileNotFoundError, but the internal licenses set does not keep its
previous value: the probe resets it to the stock license set as its very
first step, so previously probed custom licenses are lost. -/
theorem C3_probe_reset (fs : FS) (cfg : SkaffConfig)
    (hdir : fs.isDir cfg.paths.license = true)
    (hne : fs.txt cfg.paths.license ≠ fs.md cfg.paths.license) :
    licenses_probe fs cfg =
      ({ cfg with licenses := stockLicenses }, some (.fileNotFoundError msgProbeMismatch)) := by
  simp [licenses_probe, hdir, hne]

/-- Claim C3, witness. -/
theorem C3_probe_reset_witness :
    licenses_probe fsMismatch cfgC =
      ({ cfgC with licenses := stockLicenses }, some (.fileNotFoundError msgProbeMismatch)) :=
  C3_probe_reset fsMismatch cfgC (by decide) (by decide)

/-- Claim C3, counterexample to the claim as stated: probing a path
holding zlib.txt but not zlib.md raises the FileNotFoundError, but the
licenses set of a configuration that previously probed the custom
license "custom" is not left unchanged - it has been reset to the stock
set. -/
theorem C3_probe_reset_counterexample :
    (licenses_probe fsMismatch cfgC).2 = some (.fileNotFoundError msgProbeMismatch) ∧
    (licenses_probe fsMismatch cfgC).1.licenses ≠ cfgC.licenses := by
  decide

/-- Claim C4, amended.  With authors omitted or None, the authors set
becomes the single name from the gecos field of the current user,
falling back to the login name; when both are empty the call fails with
a RuntimeError (not a LookupError-class error as the claim stated). -/
theorem C4_author_default (u : PwRecord) (cfg : SkaffConfig)
    (hg : pyPrintable u.gecos = true) (hn : pyPrintable u.name = true) :
    (u.gecos ≠ "" → authors_set u cfg .pyNone =
      ({ cfg with authors := insert u.gecos (∅ : Finset String) }, none)) ∧
    (u.gecos = "" → u.name ≠ "" → authors_set u cfg .pyNone =
      ({ cfg with authors := insert u.name (∅ : Finset String) }, none)) ∧
    (u.gecos = "" → u.name = "" → authors_set u cfg .pyNone =
      ({ cfg with authors := (∅ : Finset String) }, some (.runtimeError msgAuthorFetch))) := by
  refine ⟨?_, ?_, ?_⟩
  · intro h
    simp [authors_set, author_fetch, h, author_add, length_ne_zero_of_ne_empty _ h, hg]
  · intro h1 h2
    simp [authors_set, author_fetch, h1, h2, author_add,
      length_ne_zero_of_ne_empty _ h2, hn]
  · intro h1 h2
    simp [authors_set, author_fetch, h1, h2]

/-- Claim C4, witness. -/
theorem C4_author_default_witness :
    authors_set userA cfgA .pyNone =
      ({ cfgA with authors := insert "Alice Author" (∅ : Finset String) }, none) :=
  (C4_author_default userA cfgA (by decide) (by decide)).1 (by decide)

/-- Claim C4, counterexample to the claim as stated: with both the gecos
and the login name empty, the failure is a RuntimeError, which is not a
LookupError-class exception. -/
theorem C4_author_default_counterexample :
    authors_set userNone cfgA .pyNone =
      ({ cfgA with authors := (∅ : Finset String) }, some (.runtimeError msgAuthorFetch)) ∧
    PyError.isLookupError (.runtimeError msgAuthorFetch) = false := by
  decide

/-- Claim C5 (code bug).  The membership rule of the claim holds: None
always succeeds and stores the documented default ("c" / "bsd2"), and an
explicit choice succeeds exactly when it is in the current listing.  But
the ValueError raised for an invalid choice carries the EMPTY message,
not one naming the allowed values: the source juxtaposes the message
literals with ", " so that the whole text becomes the separator argument
of str.join, and the joined generator has already been exhausted by the
membership test, leaving nothing to join. -/
theorem C5_choice_validation :
    language_set cfgA (.pyStr "java") = (cfgA, some (.valueError "")) ∧
    language_set cfgA .pyNone = ({ cfgA with language := "c" }, none) ∧
    language_set cfgA (.pyStr "cpp") = ({ cfgA with language := "cpp" }, none) ∧
    language_set cfgA (.pyStr "c") = ({ cfgA with language := "c" }, none) ∧
    license_set fsNone cfgA (.pyStr "zlib") =
      ({ cfgA with licenses := stockLicenses }, some (.valueError "")) ∧
    license_set fsNone cfgA .pyNone =
      ({ cfgA with licenses := stockLicenses, license := "bsd2" }, none) ∧
    license_set fsNone cfgA (.pyStr "mit") =
      ({ cfgA with licenses := stockLicenses, license := "mit" }, none) := by
  refine ⟨by decide, by decide, by decide, by decide, by decide, by decide, by decide⟩

/-- Claim C6 (code bug).  The constructor does run its mutators in the
documented dependency order, and an explicit license argument is checked
against a freshly probed allowed set (second to fourth conjuncts: with
the default paths pointing at a directory holding zlib in both formats,
construction with license zlib succeeds and stores the probed set; fifth
conjunct: with no custom license directory the same construction fails
at license validation).  But supplying the paths argument itself at
construction never reaches that validation: the constructor dispatch
passes the kwargs value positionally to paths_set, which accepts only
keyword arguments, so construction raises a TypeError (first
conjunct), contradicting the constructor docstring that lists paths as
a supported keyword argument. -/
theorem C6_construction_order :
    (SkaffConfig.init fsHome userA "home" (.pyList [.pyStr "proj"])
        { paths := some .pyOther, license := some (.pyStr "zlib") }).2 =
      some (.typeError "paths_set() takes 1 positional argument but 2 were given") ∧
    (SkaffConfig.init fsHome userA "home" (.pyList [.pyStr "proj"])
        { license := some (.pyStr "zlib") }).2 = none ∧
    (SkaffConfig.init fsHome userA "home" (.pyList [.pyStr "proj"])
        { license := some (.pyStr "zlib") }).1.license = "zlib" ∧
    (SkaffConfig.init fsHome userA "home" (.pyList [.pyStr "proj"])
        { license := some (.pyStr "zlib") }).1.licenses = insert "zlib" stockLicenses ∧
    (SkaffConfig.init fsNone userA "home" (.pyList [.pyStr "proj"])
        { license := some (.pyStr "zlib") }).2 = some (.valueError "") := by
  refine ⟨by decide, by decide, by decide, by decide, by decide⟩

/-- Claim C7, amended.  For every set-typed field the *_set mutator
rejects an empty iterable with a ValueError and a bare string or any
non-iterable non-None value with a TypeError; None is not rejected but
selects the documented default behaviour instead (for directories_set,
which has no default branch, None falls into the non-iterable TypeError). -/
theorem C7_set_argument_errors (u : PwRecord) (cfg : SkaffConfig) (s : String) (b : Bool) :
    authors_set u cfg (.pyList []) = (cfg, some (.valueError msgAuthorsEmpty)) ∧
    directories_set cfg (.pyList []) = (cfg, some (.valueError msgDirectoriesEmpty)) ∧
    subdirectories_set cfg (.pyList []) = (cfg, some (.valueError msgSubdirectoriesEmpty)) ∧
    authors_set u cfg (.pyStr s) = (cfg, some (.typeError msgAuthorsStr)) ∧
    directories_set cfg (.pyStr s) = (cfg, some (.typeError msgDirectoriesStr)) ∧
    subdirectories_set cfg (.pyStr s) = (cfg, some (.typeError msgSubdirectoriesStr)) ∧
    authors_set u cfg .pyOther = (cfg, some (.typeError msgAuthorsIterable)) ∧
    authors_set u cfg (.pyBool b) = (cfg, some (.typeError msgAuthorsIterable)) ∧
    directories_set cfg .pyOther = (cfg, some (.typeError msgDirectoriesIterable)) ∧
    directories_set cfg (.pyBool b) = (cfg, some (.typeError msgDirectoriesIterable)) ∧
    directories_set cfg .pyNone = (cfg, some (.typeError msgDirectoriesIterable)) ∧
    subdirectories_set cfg .pyOther = (cfg, some (.typeError msgSubdirectoriesIterable)) ∧
    subdirectories_set cfg (.pyBool b) = (cfg, some (.typeError msgSubdirectoriesIterable)) ∧
    subdirectories_set cfg .pyNone = ({ cfg with subdirectories := defaultSubdirs }, none) :=
  ⟨rfl, rfl, rfl, rfl, rfl, rfl, rfl, rfl, rfl, rfl, rfl, rfl, rfl, rfl⟩

/-- Claim C7, counterexample to the claim as stated: None is a
non-iterable value, yet authors_set with None does not fail with a
TypeError - it succeeds and stores the fetched default author. -/
theorem C7_set_argument_errors_counterexample :
    authors_set userA cfgA .pyNone =
      ({ cfgA with authors := {"Alice Author"} }, none) := by
  decide

/-- Claim C8, amended.  For every valid (non-empty printable) string s,
*_add stores the NORMALIZED form of s - s itself for authors, s with the
path separator appended when missing for directories and subdirectories -
and after the call the *_get sequence contains that normalized form
exactly once; adding the same string again changes nothing, and the
*_get sequences are sorted in the code point string order. -/
theorem C8_add_get (cfg : SkaffConfig) (s : String)
    (hlen : s.length ≠ 0) (hpr : pyPrintable s = true) :
    author_add cfg (.pyStr s) = ({ cfg with authors := insert s cfg.authors }, none) ∧
    author_add { cfg with authors := insert s cfg.authors } (.pyStr s) =
      ({ cfg with authors := insert s cfg.authors }, none) ∧
    (authors_get { cfg with authors := insert s cfg.authors }).count s = 1 ∧
    List.Sorted pyLe (authors_get { cfg with authors := insert s cfg.authors }) ∧
    directory_add cfg (.pyStr s) =
      ({ cfg with directories := insert (sepAppend s) cfg.directories }, none) ∧
    directory_add { cfg with directories := insert (sepAppend s) cfg.directories } (.pyStr s) =
      ({ cfg with directories := insert (sepAppend s) cfg.directories }, none) ∧
    (directories_get { cfg with directories := insert (sepAppend s) cfg.directories }).count
      (sepAppend s) = 1 ∧
    List.Sorted pyLe
      (directories_get { cfg with directories := insert (sepAppend s) cfg.directories }) ∧
    subdirectory_add cfg (.pyStr s) =
      ({ cfg with subdirectories := insert (sepAppend s) cfg.subdirectories }, none) ∧
    subdirectory_add
        { cfg with subdirectories := insert (sepAppend s) cfg.subdirectories } (.pyStr s) =
      ({ cfg with subdirectories := insert (sepAppend s) cfg.subdirectories }, none) ∧
    (subdirectories_get
        { cfg with subdirectories := insert (sepAppend s) cfg.subdirectories }).count
      (sepAppend s) = 1 ∧
    List.Sorted pyLe
      (subdirectories_get
        { cfg with subdirectories := insert (sepAppend s) cfg.subdirectories }) := by
  refine ⟨?_, ?_, ?_, ?_, ?_, ?_, ?_, ?_, ?_, ?_, ?_, ?_⟩
  · simp [author_add, hlen, hpr]
  · simp [author_add, hlen, hpr, Finset.insert_idem]
  · exact List.count_eq_one_of_mem (pySort_nodup _)
      ((mem_pySort _ _).mpr (Finset.mem_insert_self s _))
  · exact pySort_sorted _
  · simp [directory_add, hlen, hpr]
  · simp [directory_add, hlen, hpr, Finset.insert_idem]
  · exact List.count_eq_one_of_mem (pySort_nodup _)
      ((mem_pySort _ _).mpr (Finset.mem_insert_self (sepAppend s) _))
  · exact pySort_sorted _
  · simp [subdirectory_add, hlen, hpr]
  · simp [subdirectory_add, hlen, hpr, Finset.insert_idem]
  · exact List.count_eq_one_of_mem (pySort_nodup _)
      ((mem_pySort _ _).mpr (Finset.mem_insert_self (sepAppend s) _))
  · exact pySort_sorted _

/-- Claim C8, witness. -/
theorem C8_add_get_witness :
    (authors_get { cfgA with authors := insert "w" cfgA.authors }).count "w" = 1 :=
  (C8_add_get cfgA "w" (by decide) (by decide)).2.2.1

/-- Claim C8, counterexample to the claim as stated: directory_add of the
valid string "proj" succeeds, yet directories_get afterwards does not
contain "proj" at all - it contains the normalized "proj/". -/
theorem C8_add_get_counterexample :
    (directory_add cfgA (.pyStr "proj")).2 = none ∧
    (directories_get (directory_add cfgA (.pyStr "proj")).1).count "proj" = 0 ∧
    (directories_get (directory_add cfgA (.pyStr "proj")).1).count "proj/" = 1 := by
  decide

/-- Claim C9.  paths_get with zero arguments returns the whole stored
paths mapping (value semantics of the embedding stand in for the deep
copy), with exactly one valid key it returns that single path string,
and with two or more valid string keys it returns None: the source
builds the promised result list but never returns it. -/
theorem C9_paths_get_arity (cfg : SkaffConfig) (a b : PyObj) (rest : List PyObj)
    (h : (a :: b :: rest).all isPathKeyObj = true) :
    paths_get cfg [] = .ok (.dict cfg.paths) ∧
    paths_get cfg [.pyStr "config"] = .ok (.single cfg.paths.config) ∧
    paths_get cfg [.pyStr "license"] = .ok (.single cfg.paths.license) ∧
    paths_get cfg [.pyStr "template"] = .ok (.single cfg.paths.template) ∧
    paths_get cfg (a :: b :: rest) = .ok .listNone := by
  refine ⟨rfl, rfl, rfl, rfl, ?_⟩
  have hstr := all_str_of_all_key _ h
  simp only [paths_get, hstr]
  exact pathsLoop_ok cfg.paths _ h

/-- Claim C9, witness. -/
theorem C9_paths_get_arity_witness :
    paths_get cfgA [.pyStr "config", .pyStr "license"] = .ok .listNone :=
  (C9_paths_get_arity cfgA (.pyStr "config") (.pyStr "license") [] (by decide)).2.2.2.2

/-- Claim C10.  quiet_set with None (and construction with quiet
omitted) stores True, a bool is stored as given, and any non-bool
non-None value is rejected with a TypeError leaving the stored flag
unchanged; quiet_get returns the stored flag. -/
theorem C10_quiet_flag (cfg : SkaffConfig) (s : String) (xs : List PyObj) (b : Bool) :
    quiet_set cfg .pyNone = ({ cfg with quiet := true }, none) ∧
    quiet_get { cfg with quiet := true } = true ∧
    quiet_set cfg (.pyStr s) = (cfg, some (.typeError msgQuietBool)) ∧
    quiet_set cfg (.pyList xs) = (cfg, some (.typeError msgQuietBool)) ∧
    quiet_set cfg .pyOther = (cfg, some (.typeError msgQuietBool)) ∧
    quiet_set cfg (.pyBool b) = ({ cfg with quiet := b }, none) ∧
    (SkaffConfig.init fsHome userA "home" (.pyList [.pyStr "proj"]) {}).2 = none ∧
    quiet_get (SkaffConfig.init fsHome userA "home" (.pyList [.pyStr "proj"]) {}).1 = true :=
  ⟨rfl, rfl, rfl, rfl, rfl, rfl, by decide, by decide⟩
